import Mathlib

/-!
Verification of the Junction25 tunnel-pumping optimizer against its
natural-language specification.

The development shallowly embeds the Python sources:
  - `src/utils/helpers.py`   (constants, level/volume interpolator, power model)
  - `src/agents/optimization_agent.py` (the GEKKO MPC formulation, `solve_mpc`)
  - `src/agents/inflow_agent.py`  (`forecast_inflow`, the autoregressive loop)
  - `src/agents/price_agent.py`   (`_forecast_with_ml`, the ML fallback loop)
  - `src/main.py`            (`run_optimization_cycle` glue)

Machine floats are modelled by rationals.  The external LightGBM regressor is
modelled by an uninterpreted prediction function passed as a parameter; the
external IPOPT/GEKKO numerical solver is modelled by the constraint set it is
handed (a candidate trajectory is any point satisfying those constraints).
-/

/-! ## Constants: `TUNNEL_CONSTANTS` in `src/utils/helpers.py` -/

/-- `TUNNEL_CONSTANTS["L1_MIN"]`: minimum safe tunnel level, 0.5 m. -/
def L1_MIN : ℚ := 1 / 2

/-- `TUNNEL_CONSTANTS["L1_MAX"]`: maximum operating tunnel level, 30 m. -/
def L1_MAX : ℚ := 30

/-- `TUNNEL_CONSTANTS["L2_LEVEL"]`: water level at the WWTP, 40 m. -/
def L2_LEVEL : ℚ := 40

/-- `TUNNEL_CONSTANTS["TIMESTEP_MINUTES"]`: 15 minutes. -/
def TIMESTEP_MINUTES : ℚ := 15

/-- `TUNNEL_CONSTANTS["TIME_STEPS_PER_HOUR"]`: 4. -/
def TIME_STEPS_PER_HOUR : ℚ := 4

/-! ## Tank geometry: `get_level_volume_interpolator` fallback branch

When the calibration table file `data/tunnel_volume_table.csv` is absent
(the `FileNotFoundError` branch; no such file ships with the sources), the
function returns the affine pair
`interp_v_l = lambda L1: 10000 * L1 + 350` and
`interp_l_v = lambda V: (V - 350) / 10000`. -/

/-- Fallback level-to-volume map of `get_level_volume_interpolator`. -/
def volume_of (L1 : ℚ) : ℚ := 10000 * L1 + 350

/-- Fallback volume-to-level map of `get_level_volume_interpolator`. -/
def level_of (V : ℚ) : ℚ := (V - 350) / 10000

/-! ## Power model: `calculate_power` in `src/utils/helpers.py` -/

/-- `calculate_power(Q_total_m3h, L1_m)`, transcribed with its intermediate
bindings: `H_static = L2 - L1_m`, `H_friction = 1.0`,
`H_total = H_static + H_friction`, `Q_m3_s = Q_total_m3h / 3600`,
`ETA_TOTAL = 0.80`, and
`P_kW = (rho * g * Q_m3_s * H_total) / ETA_TOTAL / 1000`. -/
def calculate_power (Q_total_m3h : ℚ) (L1_m : ℚ) : ℚ :=
  let rho : ℚ := 1000
  let g : ℚ := 981 / 100
  let L2 : ℚ := L2_LEVEL
  let H_static : ℚ := L2 - L1_m
  let H_friction : ℚ := 1
  let H_total : ℚ := H_static + H_friction
  let Q_m3_s : ℚ := Q_total_m3h / 3600
  let ETA_TOTAL : ℚ := 4 / 5
  rho * g * Q_m3_s * H_total / ETA_TOTAL / 1000

/-! ## The MPC problem: `OptimizationAgent` in `src/agents/optimization_agent.py` -/

/-- The data handed to `OptimizationAgent.__init__`: current level, the two
forecast series (prices in EUR/kWh, inflow in m³ per 15 min) and the horizon. -/
structure MPCProblem where
  L1_start : ℚ
  prices : List ℚ
  inflow_15min : List ℚ
  horizon : ℕ

/-- `self.dt_h = TIMESTEP_MINUTES / 60.0`, i.e. 0.25 h. -/
def dt_h : ℚ := TIMESTEP_MINUTES / 60

/-- `V_min = self.V_interp(L1_min)` in `solve_mpc` (fallback interpolator). -/
def V_min : ℚ := volume_of L1_MIN

/-- `V_max = self.V_interp(L1_max)` in `solve_mpc` (fallback interpolator). -/
def V_max : ℚ := volume_of L1_MAX

/-- `F1_h = self.inflow_15min * TUNNEL_CONSTANTS["TIME_STEPS_PER_HOUR"]`:
inflow converted from m³ per 15 min to m³/h. -/
def F1_hourly (p : MPCProblem) : List ℚ :=
  p.inflow_15min.map (fun x => x * TIME_STEPS_PER_HOUR)

/-- The `m.Intermediate` linearization used inside the solve:
`L1 = L1_min + (L1_max - L1_min) * (V - V_min) / (V_max - V_min)`. -/
def L1_approx (V : ℚ) : ℚ :=
  L1_MIN + (L1_MAX - L1_MIN) * (V - V_min) / (V_max - V_min)

/-- A candidate solution of the GEKKO program: the state series `V` (m³) and
the manipulated series `F2` (m³/h), one value per time point of `m.time`. -/
structure Trajectory where
  V : List ℚ
  F2 : List ℚ

/-- Modelled from the spec: the discretization GEKKO applies to the equation
`m.Equation(V.dt() == F1_t - F2)` lives inside the GEKKO library, which is not
part of this repository; the spec states it as forward Euler, one equation per
step `k = 0..H-2`: `V[k+1] = V[k] + Δt · (F1[k] − F2[k])`. -/
def eulerStep (p : MPCProblem) (t : Trajectory) (k : ℕ) : Prop :=
  t.V.getD (k + 1) 0 = t.V.getD k 0 + dt_h * ((F1_hourly p).getD k 0 - t.F2.getD k 0)

instance (p : MPCProblem) (t : Trajectory) (k : ℕ) : Decidable (eulerStep p t k) := by
  unfold eulerStep; exact inferInstance

/-- The constraint set of the GEKKO program built by `solve_mpc`:
  - `V = m.Var(value=V_start, lb=V_min, ub=V_max)` — initial condition and
    state bounds at every time point;
  - `F2 = m.MV(..., lb=100, ub=10000)` — manipulated-variable bounds;
  - `m.Equation(V.dt() == F1_t - F2)` — the mass-balance dynamics
    (discretized per `eulerStep`);
  - `m.fix(L1, val=0.5, pos=self.horizon - 1)` — the terminal fix of the
    linearized level intermediate.
A successful solver run returns a point satisfying all of these. -/
def FeasibleSolution (p : MPCProblem) (t : Trajectory) : Prop :=
  t.V.length = p.horizon ∧
  t.F2.length = p.horizon ∧
  t.V.getD 0 0 = volume_of p.L1_start ∧
  (∀ k, k < p.horizon → V_min ≤ t.V.getD k 0 ∧ t.V.getD k 0 ≤ V_max) ∧
  (∀ k, k < p.horizon → 100 ≤ t.F2.getD k 0 ∧ t.F2.getD k 0 ≤ 10000) ∧
  (∀ k, k < p.horizon - 1 → eulerStep p t k) ∧
  L1_approx (t.V.getD (p.horizon - 1) 0) = 1 / 2

instance (p : MPCProblem) (t : Trajectory) : Decidable (FeasibleSolution p t) := by
  unfold FeasibleSolution; exact inferInstance

/-! ## Post-processing of `solve_mpc`

After `m.solve` the method builds a results DataFrame:

    results = pd.DataFrame({
        'L1_m_Optimal': final_L1_values, 'V_m3_Optimal': V.value,
        'F2_m3/h_Optimal': F2.value, 'P_kW_Optimal': P.value,
        'Price_EUR/kWh': Price_t.value, 'Inflow_m3/h': F1_t.value,
    }, index=inflow_forecast.index)

The line references the bare name `inflow_forecast`, and Python resolves bare
names through the local scope of `solve_mpc`, the enclosing module globals of
`optimization_agent.py`, and the builtins. -/

/-- The columns of the results DataFrame `solve_mpc` attempts to build. -/
structure MPCResults where
  L1_m_Optimal : List ℚ
  V_m3_Optimal : List ℚ
  F2_m3h_Optimal : List ℚ
  P_kW_Optimal : List ℚ
  Price_EUR_kWh : List ℚ
  Inflow_m3h : List ℚ

/-- The column values of the results frame: the accurate re-interpolated
levels `final_L1_values = self.L_interp(V.value)`, the solver series `V.value`
and `F2.value`, the power intermediate `P = calculate_power(F2, L1)` evaluated
along the trajectory, and the echoed `Price_t.value` and `F1_t.value`. -/
def buildResults (p : MPCProblem) (t : Trajectory) : MPCResults where
  L1_m_Optimal := t.V.map level_of
  V_m3_Optimal := t.V
  F2_m3h_Optimal := t.F2
  P_kW_Optimal := (t.F2.zip (t.V.map L1_approx)).map (fun q => calculate_power q.1 q.2)
  Price_EUR_kWh := p.prices
  Inflow_m3h := F1_hourly p

/-- The names a bare identifier can resolve to at the line
`results = pd.DataFrame({...}, index=inflow_forecast.index)`: the locals
assigned in `solve_mpc` up to that line, the method parameter `self`, and the
module-level bindings of `optimization_agent.py` (its imports and the class
itself).  `inflow_forecast` is a parameter of `__init__` only and appears in
none of these scopes. -/
def solveMpcScopeNames : List String :=
  ["self", "m", "L1_min", "L1_max", "V_start", "V_min", "V_max",
   "F1_h", "Price_t", "F1_t", "V", "F2", "L1", "P", "final_L1_values",
   "np", "pd", "GEKKO", "TUNNEL_CONSTANTS", "get_level_volume_interpolator",
   "calculate_power", "OptimizationAgent"]

/-- The observable result of `OptimizationAgent.solve_mpc`.  The argument
`solverResult` is `none` when `m.solve` raises (non-convergence or
infeasibility) and `some t` when the solver returns the point `t`.  The whole
body sits in one `try` block whose blanket `except Exception` returns `None`,
so the `NameError` raised when the bare name `inflow_forecast` fails to
resolve is also converted to `None`. -/
def solve_mpc (p : MPCProblem) (solverResult : Option Trajectory) : Option MPCResults :=
  match solverResult with
  | none => none
  | some t =>
    if "inflow_forecast" ∈ solveMpcScopeNames then some (buildResults p t)
    else none

/-! ## The autoregressive forecast loop

`InflowAgent.forecast_inflow` (src/agents/inflow_agent.py) and
`PriceAgent._forecast_with_ml` (src/agents/price_agent.py) share the same
loop: predict one step with the fitted regressor, append, and update the
dictionary `last_values`, which holds the keys `<target>_lag_1`,
`<target>_lag_4`, `<target>_lag_24` (plus calendar features).  The lag part of
`last_values` is modelled as a function from the lag offset to the stored
value, with key set `{1, 4, 24}`. -/

/-- The lag offsets used as features: `for lag in [1, 4, 24]`. -/
def lagKeys : List ℕ := [1, 4, 24]

/-- One iteration of the update loop
`for lag in sorted([24, 4, 1], reverse=True)`:
`prev_lag_key` names lag `lag - 1` when `lag > 1` and is `None` otherwise;
if `prev_lag_key in last_values` the value shifts, `elif lag_key in
last_values` the key is overwritten with the fresh prediction. -/
def lagShiftIter (next : ℚ) (last : ℕ → ℚ) (lag : ℕ) : ℕ → ℚ :=
  if 1 < lag ∧ (lag - 1) ∈ lagKeys then
    fun l => if l = lag then last (lag - 1) else last l
  else if lag ∈ lagKeys then
    fun l => if l = lag then next else last l
  else last

/-- The complete per-step lag-state update: the loop over `[24, 4, 1]`
followed by the unconditional `last_values[f"..._lag_1"] = next`. -/
def updateLagState (last : ℕ → ℚ) (next : ℚ) : ℕ → ℚ :=
  let s := [24, 4, 1].foldl (lagShiftIter next) last
  fun l => if l = 1 then next else s l

/-- The feature vector handed to `model.predict`: the three lag values plus
`hour` and `dayofweek`.  Weather columns are never part of it: the loop builds
`current_features` from the training feature list, which contains only lag
and calendar columns. -/
structure FeatVec where
  lag1 : ℚ
  lag4 : ℚ
  lag24 : ℚ
  hour : ℕ
  dayofweek : ℕ

/-- Assemble the prediction input of one loop iteration. -/
def featuresOf (last : ℕ → ℚ) (hour dayofweek : ℕ) : FeatVec :=
  ⟨last 1, last 4, last 24, hour, dayofweek⟩

/-- The inflow loop body (`for i in range(n_steps)` in `forecast_inflow`):
predict, append `max(0, next_inflow)`, update the lag state with the
**unclamped** prediction. -/
def inflowLoop (predict : FeatVec → ℚ) (hour dayofweek : ℕ → ℕ) :
    ℕ → ℕ → (ℕ → ℚ) → List ℚ
  | _, 0, _ => []
  | i, n + 1, last =>
    let next := predict (featuresOf last (hour i) (dayofweek i))
    max 0 next :: inflowLoop predict hour dayofweek (i + 1) n (updateLagState last next)

/-- The price loop body (`for i in range(n_steps)` in `_forecast_with_ml`):
identical to the inflow loop but with no clamp on the appended value. -/
def priceLoop (predict : FeatVec → ℚ) (hour dayofweek : ℕ → ℕ) :
    ℕ → ℕ → (ℕ → ℚ) → List ℚ
  | _, 0, _ => []
  | i, n + 1, last =>
    let next := predict (featuresOf last (hour i) (dayofweek i))
    next :: priceLoop predict hour dayofweek (i + 1) n (updateLagState last next)

/-- Number of rows surviving `dropna()` after the lag columns
`shift(1)`, `shift(4)`, `shift(24)` are added to the cleaned history (which
itself contains no missing values): the first 24 rows lose their
`..._lag_24` value, so `len(df) - 24` rows remain (0 when there are fewer
than 25 rows).  Identical in `forecast_inflow` and `_create_features`. -/
def validTrainingRows (hist : List ℚ) : ℕ := hist.length - 24

/-- `last_values = df_hist[features].iloc[-1].to_dict()`: the lag value at
offset `L` in the last training row is the target observed `L` steps before
the end of the history. -/
def initLags (hist : List ℚ) : ℕ → ℚ :=
  fun L => hist.getD (hist.length - 1 - L) 0

/-- `InflowAgent.forecast_inflow`: trains on the lagged history and runs the
autoregressive loop.  There is no zero-row guard: with an empty training
table `self.model.fit(X_train, y_train)` raises, the method has no handler,
and the exception escapes — modelled as `none`. -/
def forecast_inflow (hist : List ℚ) (predict : FeatVec → ℚ)
    (hour dayofweek : ℕ → ℕ) (n_steps : ℕ) : Option (List ℚ) :=
  if validTrainingRows hist = 0 then none
  else some (inflowLoop predict hour dayofweek 0 n_steps (initLags hist))

/-- `PriceAgent._forecast_with_ml`: when `len(X_train) == 0` it returns the
constant series `pd.Series(last_price, index=..., periods=n_steps)` built
from `self.history_df[self.target_col].iloc[-1]` (which itself raises on an
entirely empty history — modelled as `none`); otherwise it runs the
autoregressive loop. -/
def forecast_with_ml (hist : List ℚ) (predict : FeatVec → ℚ)
    (hour dayofweek : ℕ → ℕ) (n_steps : ℕ) : Option (List ℚ) :=
  if validTrainingRows hist = 0 then
    match hist.getLast? with
    | none => none
    | some last_price => some (List.replicate n_steps last_price)
  else some (priceLoop predict hour dayofweek 0 n_steps (initLags hist))

/-! ## Cycle glue: `run_optimization_cycle` in `src/main.py` -/

/-- The state-extraction and problem-construction steps of
`run_optimization_cycle`: the cleaned history table is read as a map from
(cleaned) column name to column values,
`current_L1 = hist_df["water_level_in_tunnel_l2"].iloc[-1]` (raising — early
return — on an empty column), and the `OptimizationAgent` is constructed with
`current_L1=current_L1` and `horizon=len(price_forecast)`. -/
def run_cycle_problem (hist : String → List ℚ) (prices inflow : List ℚ) :
    Option MPCProblem :=
  match (hist "water_level_in_tunnel_l2").getLast? with
  | none => none
  | some current_L1 =>
    some { L1_start := current_L1, prices := prices,
           inflow_15min := inflow, horizon := prices.length }

/-! ## Shared concrete instances (used by witnesses) -/

/-- A concrete two-step problem instance. -/
def exProb : MPCProblem :=
  { L1_start := 21 / 40, prices := [1 / 10, 1 / 10],
    inflow_15min := [0, 0], horizon := 2 }

/-- A concrete trajectory feasible for `exProb`. -/
def exTraj : Trajectory := { V := [5600, 5350], F2 := [1000, 100] }

/-- A concrete lag state: 10 at lag 1, 20 at lag 4, 30 at lag 24. -/
def exLagVals : ℕ → ℚ :=
  fun l => if l = 1 then 10 else if l = 4 then 20 else if l = 24 then 30 else 0

/-- A concrete cleaned history table with one column. -/
def exHistTable : String → List ℚ :=
  fun c => if c = "water_level_in_tunnel_l2" then [3, 5] else []

/-! ## Theorems -/

theorem exFeasible : FeasibleSolution exProb exTraj := by
  refine ⟨rfl, rfl, ?_, ?_, ?_, ?_, ?_⟩
  · norm_num [exProb, exTraj, volume_of, List.getD_cons_zero]
  · intro k hk
    have hk2 : k < 2 := hk
    interval_cases k <;>
      norm_num [exProb, exTraj, V_min, V_max, volume_of, L1_MIN, L1_MAX,
        List.getD_cons_zero, List.getD_cons_succ]
  · intro k hk
    have hk2 : k < 2 := hk
    interval_cases k <;>
      norm_num [exProb, exTraj, List.getD_cons_zero, List.getD_cons_succ]
  · intro k hk
    have hk2 : k < 1 := hk
    interval_cases k
    norm_num [exProb, exTraj, eulerStep, dt_h, F1_hourly, TIMESTEP_MINUTES,
      TIME_STEPS_PER_HOUR, List.getD_cons_zero, List.getD_cons_succ]
  · norm_num [exProb, exTraj, L1_approx, V_min, V_max, volume_of, L1_MIN, L1_MAX,
      List.getD_cons_zero, List.getD_cons_succ]

/-- With the affine fallback geometry, the in-solve linearization `L1_approx`
coincides exactly with the accurate inverse interpolant `level_of`. -/
theorem L1_approx_eq (V : ℚ) : L1_approx V = level_of V := by
  simp only [L1_approx, level_of, V_min, V_max, volume_of, L1_MIN, L1_MAX]
  ring

/-- Reading the hourly inflow series at any index equals the 15-minute value
at that index times 4 (also past the end, where both sides are 0). -/
theorem getD_F1_hourly (l : List ℚ) (k : ℕ) :
    (l.map (fun x => x * TIME_STEPS_PER_HOUR)).getD k 0 = l.getD k 0 * 4 := by
  induction l generalizing k with
  | nil => simp
  | cons a t ih =>
    cases k with
    | zero => simp [TIME_STEPS_PER_HOUR]
    | succ n => simpa using ih n

/-- The inflow loop emits exactly one value per iteration. -/
theorem inflowLoop_length (predict : FeatVec → ℚ) (hour dayofweek : ℕ → ℕ)
    (n : ℕ) : ∀ (i : ℕ) (last : ℕ → ℚ),
      (inflowLoop predict hour dayofweek i n last).length = n := by
  induction n with
  | zero => intro i last; rfl
  | succ n ih => intro i last; simp [inflowLoop, ih]

/-- Every value the inflow loop emits has passed through `max(0, ·)`. -/
theorem inflowLoop_nonneg (predict : FeatVec → ℚ) (hour dayofweek : ℕ → ℕ)
    (n : ℕ) : ∀ (i : ℕ) (last : ℕ → ℚ) (x : ℚ),
      x ∈ inflowLoop predict hour dayofweek i n last → 0 ≤ x := by
  induction n with
  | zero => intro i last x hx; simp [inflowLoop] at hx
  | succ n ih =>
    intro i last x hx
    simp only [inflowLoop, List.mem_cons] at hx
    rcases hx with rfl | hx
    · exact le_max_left 0 _
    · exact ih _ _ _ hx

/-- C8: with no calibration table, the fallback maps are
`volume_of(L) = 10000·L + 350` and `level_of(V) = (V − 350)/10000`; they are
exact two-sided inverses of one another and both strictly increasing. -/
theorem interpolator_fallback_exact_affine_inverse :
    (∀ x : ℚ, level_of (volume_of x) = x) ∧
      (∀ x : ℚ, volume_of (level_of x) = x) ∧
        StrictMono volume_of ∧ StrictMono level_of := by
  refine ⟨fun x => ?_, fun x => ?_, fun a b hab => ?_, fun a b hab => ?_⟩
  · simp only [level_of, volume_of]; ring
  · simp only [level_of, volume_of]; ring
  · simp only [volume_of]; linarith
  · simp only [level_of]; linarith

/-- C9: `calculate_power` is a single total branch-free formula, equal for
every flow `Q` and every level `L1` (bounded or not) to
`ρ·g·(Q/3600)·((L2 − L1) + H_friction) / (η·1000)` with `ρ = 1000`,
`g = 9.81`, `L2 = 40`, `H_friction = 1`, `η = 0.80`. -/
theorem calculate_power_formula :
    ∀ Q L1 : ℚ, calculate_power Q L1 =
      1000 * (981 / 100) * (Q / 3600) * ((40 - L1) + 1) / ((4 / 5) * 1000) := by
  intro Q L1
  simp only [calculate_power, L2_LEVEL]
  ring

/-- C5: every trajectory satisfying the constraint set of the GEKKO program
keeps the volume between `volume_of(0.5)` and `volume_of(30)` and the pumped
flow between 100 and 10000 m³/h at every step, boundaries inclusive. -/
theorem mpc_trajectory_bounds (p : MPCProblem) (t : Trajectory)
    (hf : FeasibleSolution p t) :
    ∀ k, k < p.horizon →
      volume_of (1 / 2) ≤ t.V.getD k 0 ∧ t.V.getD k 0 ≤ volume_of 30 ∧
        100 ≤ t.F2.getD k 0 ∧ t.F2.getD k 0 ≤ 10000 := by
  intro k hk
  obtain ⟨-, -, -, hV, hF2, -, -⟩ := hf
  have h1 := hV k hk
  have h2 := hF2 k hk
  refine ⟨?_, ?_, h2.1, h2.2⟩
  · simpa [V_min, L1_MIN] using h1.1
  · simpa [V_max, L1_MAX] using h1.2

theorem mpc_trajectory_bounds_witness :
    volume_of (1 / 2) ≤ exTraj.V.getD 0 0 ∧ exTraj.V.getD 0 0 ≤ volume_of 30 ∧
      100 ≤ exTraj.F2.getD 0 0 ∧ exTraj.F2.getD 0 0 ≤ 10000 :=
  mpc_trajectory_bounds exProb exTraj exFeasible 0 (by decide)

/-- C6: every trajectory satisfying the constraint set of the GEKKO program
obeys the forward-Euler mass balance
`V[k+1] − V[k] = Δt · (F1[k] − F2[k])` at every consecutive pair of steps,
with `Δt = 0.25 h` and the inflow converted to m³/h (`F1[k] = inflow[k]·4`). -/
theorem mpc_mass_balance (p : MPCProblem) (t : Trajectory)
    (hf : FeasibleSolution p t) :
    ∀ k, k + 1 < p.horizon →
      t.V.getD (k + 1) 0 - t.V.getD k 0
        = 1 / 4 * (p.inflow_15min.getD k 0 * 4 - t.F2.getD k 0) := by
  intro k hk
  obtain ⟨-, -, -, -, -, hdyn, -⟩ := hf
  have h := hdyn k (by omega)
  unfold eulerStep at h
  have hF1 : (F1_hourly p).getD k 0 = p.inflow_15min.getD k 0 * 4 :=
    getD_F1_hourly p.inflow_15min k
  rw [h, hF1]
  simp only [dt_h, TIMESTEP_MINUTES]
  ring

theorem mpc_mass_balance_witness :
    exTraj.V.getD 1 0 - exTraj.V.getD 0 0
      = 1 / 4 * (exProb.inflow_15min.getD 0 0 * 4 - exTraj.F2.getD 0 0) :=
  mpc_mass_balance exProb exTraj exFeasible 0 (by decide)

/-- C7: for every trajectory satisfying the constraint set, the terminal
level reported after post-processing — `level_of` applied to the last volume —
equals the 0.5 m drawdown target exactly: with the affine fallback geometry
the linearized in-solve `L1` that `m.fix` pins at 0.5 coincides with
`level_of`. -/
theorem mpc_terminal_level (p : MPCProblem) (t : Trajectory)
    (hf : FeasibleSolution p t) :
    level_of (t.V.getD (p.horizon - 1) 0) = 1 / 2 := by
  obtain ⟨-, -, -, -, -, -, hterm⟩ := hf
  rw [← L1_approx_eq]
  exact hterm

theorem mpc_terminal_level_witness :
    level_of (exTraj.V.getD (exProb.horizon - 1) 0) = 1 / 2 :=
  mpc_terminal_level exProb exTraj exFeasible

/-- C1: `solve_mpc` never returns a result object — even when the numerical
solve succeeds, the post-processing line
`results = pd.DataFrame({...}, index=inflow_forecast.index)` references the
bare name `inflow_forecast`, which is in none of the scopes visible there, so
a `NameError` is raised inside the `try` block, swallowed by the blanket
`except Exception`, and `None` is returned.  This contradicts the solve
contract (a Trajectory on success, `None` only on solver failure). -/
theorem solve_mpc_none_even_on_success :
    ∀ (p : MPCProblem) (t : Trajectory), solve_mpc p (some t) = none := by
  intro p t
  show (if "inflow_forecast" ∈ solveMpcScopeNames then some (buildResults p t)
        else none) = none
  rw [if_neg (by decide)]

/-- C2 counterexample: with the lag state (lag 1 ↦ 10, lag 4 ↦ 20,
lag 24 ↦ 30) and fresh prediction 7, the claim says the value stored at lag 24
becomes lag 4's old value 20; the code stores 7 (the fresh prediction),
because `prev_lag_key` names lag 23, which is not a tracked key, so the
`elif`-fallback overwrites lag 24 with the prediction. -/
theorem lag_shift_counterexample :
    updateLagState exLagVals 7 24 ≠ exLagVals 4 := by decide

/-- C2 amended: in each iteration of the recursive forecast loop, after a
value is predicted the update loop sets the values stored at all three lags
(24, 4 and 1) to the freshly predicted value; no shift from the next-smaller
lag occurs, since the looked-up key `lag L−1` (lag 23, lag 3) is never among
the tracked keys `{1, 4, 24}`. -/
theorem lag_update_sets_all_lags_to_prediction :
    ∀ (last : ℕ → ℚ) (next : ℚ),
      updateLagState last next 24 = next ∧ updateLagState last next 4 = next ∧
        updateLagState last next 1 = next := by
  intro last next
  refine ⟨?_, ?_, ?_⟩ <;> simp [updateLagState, lagShiftIter, lagKeys]

/-- C3 counterexample: with a one-row history (24 or fewer rows means zero
valid training rows) the price fallback produces the constant series, but the
inflow forecaster has no zero-row guard: `model.fit` raises on the empty
training table and the exception escapes `forecast_inflow` (modelled as
`none`) instead of the claimed `some` of H copies of the last value 7. -/
theorem insufficient_history_counterexample :
    forecast_inflow [7] (fun _ => 0) (fun _ => 0) (fun _ => 0) 3 = none ∧
      forecast_inflow [7] (fun _ => 0) (fun _ => 0) (fun _ => 0) 3
        ≠ some (List.replicate 3 7) := by
  refine ⟨rfl, ?_⟩
  intro h
  have hnone : forecast_inflow [7] (fun _ => 0) (fun _ => 0) (fun _ => 0) 3
      = none := rfl
  rw [hnone] at h
  cases h

/-- C3 amended: when the cleaned history yields zero valid training rows
after lag construction, the price forecaster (`_forecast_with_ml`) returns
exactly H copies of the last known historical price without failing; the
inflow forecaster (`forecast_inflow`) has no such fallback and fails instead
of returning a series. -/
theorem zero_training_rows_fallback (hist : List ℚ) (predict : FeatVec → ℚ)
    (hour dayofweek : ℕ → ℕ) (n : ℕ) (last : ℚ)
    (h0 : validTrainingRows hist = 0) (hlast : hist.getLast? = some last) :
    forecast_with_ml hist predict hour dayofweek n = some (List.replicate n last) ∧
      forecast_inflow hist predict hour dayofweek n = none := by
  constructor
  · unfold forecast_with_ml
    rw [if_pos h0, hlast]
  · unfold forecast_inflow
    rw [if_pos h0]

theorem zero_training_rows_fallback_witness :
    forecast_with_ml [7] (fun _ => 0) (fun _ => 0) (fun _ => 0) 2
        = some (List.replicate 2 7) ∧
      forecast_inflow [7] (fun _ => 0) (fun _ => 0) (fun _ => 0) 2 = none :=
  zero_training_rows_fallback [7] (fun _ => 0) (fun _ => 0) (fun _ => 0) 2 7
    rfl rfl

/-- C4: whenever `forecast_inflow` returns a series, that series has length
exactly `n_steps` (the loop runs `for i in range(n_steps)` over the
time-feature frame, which has `n_steps` rows regardless of how many weather
rows were fetched — weather columns never enter the prediction features) and
every value is non-negative (each prediction is appended as
`max(0, next_inflow)`). -/
theorem forecast_inflow_length_and_nonneg (hist : List ℚ)
    (predict : FeatVec → ℚ) (hour dayofweek : ℕ → ℕ) (n : ℕ) (l : List ℚ)
    (h : forecast_inflow hist predict hour dayofweek n = some l) :
    l.length = n ∧ ∀ x ∈ l, 0 ≤ x := by
  unfold forecast_inflow at h
  by_cases h0 : validTrainingRows hist = 0
  · rw [if_pos h0] at h
    cases h
  · rw [if_neg h0] at h
    injection h with h
    subst h
    exact ⟨inflowLoop_length predict hour dayofweek n 0 (initLags hist),
      fun x hx => inflowLoop_nonneg predict hour dayofweek n 0 (initLags hist) x hx⟩

theorem forecast_inflow_length_and_nonneg_witness :
    ([2, 2, 2] : List ℚ).length = 3 ∧ ∀ x ∈ ([2, 2, 2] : List ℚ), 0 ≤ x :=
  forecast_inflow_length_and_nonneg (List.replicate 25 1) (fun _ => 2)
    (fun _ => 0) (fun _ => 0) 3 [2, 2, 2] (by decide)

/-- C10: the current tunnel level handed to the optimizer as `current_L1`
(and stored as `L1_start`) is always the last value of the history column
named `water_level_in_tunnel_l2` — the column whose (cleaned) label carries
the downstream/WWTP name L2. -/
theorem cycle_L1_is_last_of_l2_named_column (hist : String → List ℚ)
    (prices inflow : List ℚ) (p : MPCProblem)
    (h : run_cycle_problem hist prices inflow = some p) :
    (hist "water_level_in_tunnel_l2").getLast? = some p.L1_start := by
  unfold run_cycle_problem at h
  cases hcol : (hist "water_level_in_tunnel_l2").getLast? with
  | none => rw [hcol] at h; cases h
  | some v =>
    rw [hcol] at h
    injection h with h
    subst h
    rfl

theorem cycle_L1_is_last_of_l2_named_column_witness :
    (exHistTable "water_level_in_tunnel_l2").getLast?
      = some ({ L1_start := 5, prices := [1], inflow_15min := [0],
                horizon := 1 } : MPCProblem).L1_start :=
  cycle_L1_is_last_of_l2_named_column exHistTable [1] [0]
    { L1_start := 5, prices := [1], inflow_15min := [0], horizon := 1 }
    rfl
